import Mathlib

/-!
Shallow embedding of `wiump` (`src/main.rs`): a tool that lists network
sockets together with the processes owning them.

The embedding makes the program's external inputs explicit parameters:
  * the process-table snapshot (`sysinfo::System`) becomes an association
    list from pid to the process's observable fields;
  * the kernel socket tables (`netstat2::iterate_sockets_info`, one call per
    address family) become a value of type `KernelTable`: either a
    whole-table failure or a list of per-row results, each row being either
    a well-formed raw socket record or a malformed row;
  * the account directory (`users::get_user_by_uid`) becomes an association
    list from uid to user name.
All functions are then pure functions of these captured inputs, mirroring
the Rust control flow line by line.
-/

namespace Wiump

/-- IP addresses are only ever displayed, never inspected; model them as
opaque strings. -/
abbrev IpAddr := String

/-- `netstat2::TcpState`. -/
inductive TcpState where
  | Listen | SynSent | SynReceived | Established
  | FinWait1 | FinWait2 | CloseWait | Closing
  | LastAck | TimeWait | Closed | DeleteTcb | Unknown
  deriving DecidableEq, Repr

/-- `netstat2::ProtocolFlags` restricted to the two variants the program
uses. -/
inductive Protocol where
  | TCP | UDP
  deriving DecidableEq, Repr

/-- `netstat2::AddressFamilyFlags` restricted to the two variants the
program uses. -/
inductive AddressFamily where
  | IPV4 | IPV6
  deriving DecidableEq, Repr

/-- The TCP payload of a raw `netstat2` socket row. -/
structure TcpSocketInfo where
  local_addr : IpAddr
  local_port : Nat
  remote_addr : IpAddr
  remote_port : Nat
  state : TcpState
  deriving DecidableEq, Repr

/-- The UDP payload of a raw `netstat2` socket row. -/
structure UdpSocketInfo where
  local_addr : IpAddr
  local_port : Nat
  deriving DecidableEq, Repr

/-- `netstat2::ProtocolSocketInfo`. -/
inductive ProtocolSocketInfo where
  | Tcp : TcpSocketInfo → ProtocolSocketInfo
  | Udp : UdpSocketInfo → ProtocolSocketInfo
  deriving DecidableEq, Repr

/-- One well-formed row of the kernel socket table, as delivered by
`netstat2` (`SocketInfo` in that crate): the protocol-specific payload plus
the pids the OS already associates with the socket. -/
structure RawSocketInfo where
  protocol_socket_info : ProtocolSocketInfo
  associated_pids : List Nat
  deriving DecidableEq, Repr

/-- The observable fields of one `sysinfo` process entry: name, uid,
command line, executable path, working directory.  `exe`/`cwd` are optional
in `sysinfo`, mirrored with `Option`. -/
structure SysProcess where
  name : String
  uid : Option Nat
  cmd : List String
  exe : Option String
  cwd : Option String
  deriving DecidableEq, Repr

/-- The process-table snapshot: pid ↦ process fields, captured once
(`System::new_all` + `refresh_processes`) and read-only afterwards. -/
abbrev SystemSnap := List (Nat × SysProcess)

/-- The result of one `iterate_sockets_info` call: either the whole table
is unreadable, or a list of rows each of which may individually be
malformed (`Err` entries of the iterator). -/
abbrev KernelTable := Except String (List (Except Unit RawSocketInfo))

/-- `struct ProcessInfo` from `src/main.rs`.  `exe`/`cwd` are `PathBuf`s in
Rust, built with `PathBuf::new()` (the empty path) when absent; modelled as
strings with `""` for the empty path. -/
structure ProcessInfo where
  pid : Nat
  uid : Option Nat
  name : String
  cmd : List String
  exe : String
  cwd : String
  deriving DecidableEq, Repr

/-- `struct SocketInfo` from `src/main.rs`. -/
structure SocketInfo where
  local_port : Nat
  local_addr : IpAddr
  remote_port : Option Nat
  remote_addr : Option IpAddr
  protocol : Protocol
  state : Option TcpState
  family : AddressFamily
  processes : List ProcessInfo
  deriving DecidableEq, Repr

/-- The closure mapped over `si.associated_pids` in `get_sockets`
(`src/main.rs` lines 54-85): look the pid up in the snapshot; if present,
copy its fields (with empty paths for missing `exe`/`cwd`); if the process
has vanished, build the sentinel record with only the pid populated. -/
def resolvePid (sys : SystemSnap) (pid : Nat) : ProcessInfo :=
  match List.lookup pid sys with
  | some process =>
      { pid := pid
        uid := process.uid
        name := process.name
        cmd := process.cmd
        exe := process.exe.getD ""
        cwd := process.cwd.getD "" }
  | none =>
      { pid := pid
        uid := none
        name := "unknown"
        cmd := []
        exe := ""
        cwd := "" }

/-- The body of the `for` loop of `get_sockets` for one well-formed row
(`src/main.rs` lines 51-109): resolve every associated pid, then build the
unified `SocketInfo` according to the protocol payload. -/
def mkSocket (sys : SystemSnap) (addr : AddressFamily) (si : RawSocketInfo) :
    SocketInfo :=
  let processes := si.associated_pids.map (resolvePid sys)
  match si.protocol_socket_info with
  | .Tcp tcp =>
      { processes := processes
        local_port := tcp.local_port
        local_addr := tcp.local_addr
        remote_port := some tcp.remote_port
        remote_addr := some tcp.remote_addr
        protocol := .TCP
        state := some tcp.state
        family := addr }
  | .Udp udp =>
      { processes := processes
        local_port := udp.local_port
        local_addr := udp.local_addr
        remote_port := none
        remote_addr := none
        protocol := .UDP
        state := none
        family := addr }

/-- The well-formed rows of a raw table, in order: the `for` loop does
`continue` on every `Err` row (`src/main.rs` lines 46-49). -/
def okRows (rows : List (Except Unit RawSocketInfo)) : List RawSocketInfo :=
  rows.filterMap fun r =>
    match r with
    | .ok si => some si
    | .error _ => none

/-- `fn get_sockets` (`src/main.rs` lines 38-113).  The `iterate_sockets_info`
call is the `table` parameter; its failure is wrapped in the
"Failed to get socket information" message and aborts the enumeration,
while malformed individual rows are skipped and the remaining rows are
converted with `mkSocket`. -/
def get_sockets (sys : SystemSnap) (addr : AddressFamily)
    (table : KernelTable) : Except String (List SocketInfo) :=
  match table with
  | .error e => .error ("Failed to get socket information: " ++ e)
  | .ok rows => .ok ((okRows rows).map (mkSocket sys addr))

/-- UTF-8 byte length of a list of characters: Rust's `str::len` counts
bytes, not characters. -/
def utf8Len (cs : List Char) : Nat := (cs.map Char.utf8Size).sum

/-- Rust byte slicing `&s[..k]`: `some` of the first characters making up
exactly `k` bytes when `k` is a character boundary within the string,
`none` (a panic in Rust) when `k` is out of range or falls strictly inside
a multi-byte character. -/
def byteSliceTo : List Char → Nat → Option (List Char)
  | _, 0 => some []
  | [], _ + 1 => none
  | c :: cs, k + 1 =>
      if Char.utf8Size c ≤ k + 1 then
        (byteSliceTo cs (k + 1 - Char.utf8Size c)).map (c :: ·)
      else none

/-- `fn format_command_line` (`src/main.rs` lines 116-127), at the level of
character lists so that Rust's byte-indexed slicing is visible.  `cmd.join(" ")`
is `List.intercalate [' ']`; the slice `&full_cmd[..max_length-3]` is
`byteSliceTo`, whose `none` result marks the panic of the Rust original.
Rust's `saturating_sub` is `Nat` subtraction. -/
def format_command_line (cmd : List (List Char)) (max_length : Nat) :
    Option (List Char) :=
  if cmd.isEmpty then
    some "unknown".data
  else
    let full_cmd := List.intercalate [' '] cmd
    if utf8Len full_cmd ≤ max_length then
      some full_cmd
    else
      (byteSliceTo full_cmd (max_length - 3)).map (· ++ "...".data)

/-- The account directory (`/etc/passwd` as read by the `users` crate):
uid ↦ user name. -/
abbrev UsersDir := List (Nat × String)

/-- `users::get_user_by_uid` over the captured account directory. -/
def get_user_by_uid (dir : UsersDir) (uid : Nat) : Option String :=
  List.lookup uid dir

/-- `fn get_user_info` (`src/main.rs` lines 167-174): the displayed uid
string and the resolved user name, each falling back to the "unknown"
sentinel. -/
def get_user_info (dir : UsersDir) (uid : Option Nat) : String × String :=
  let uid_str :=
    match uid with
    | some u => toString u
    | none => "unknown"
  let user :=
    match uid.bind (get_user_by_uid dir) with
    | some name => name
    | none => "unknown"
  (uid_str, user)

/-- The uid handed to `get_user_info` in the table/detail branches of
`main` (`src/main.rs` lines 223-244, 298-309, 343-349): the first
associated process's uid, or `none` when the socket has no process. -/
def first_uid (s : SocketInfo) : Option Nat :=
  match s.processes.head? with
  | some proc_info => proc_info.uid
  | none => none

/-- The user name printed for a socket row: `get_user_info` applied to the
first process's uid. -/
def displayed_user (dir : UsersDir) (s : SocketInfo) : String :=
  (get_user_info dir (first_uid s)).2

/-- The comparison `main` sorts with (`src/main.rs` line 282):
`a.local_port.cmp(&b.local_port)` as a `≤` relation on records. -/
def portLe (a b : SocketInfo) : Prop := a.local_port ≤ b.local_port

instance : DecidableRel portLe := fun a b => Nat.decLe a.local_port b.local_port

instance : IsTotal SocketInfo portLe := ⟨fun a b => Nat.le_total a.local_port b.local_port⟩

instance : IsTrans SocketInfo portLe := ⟨fun _ _ _ => Nat.le_trans⟩

/-- `tcp_sockets.sort_by(|a, b| a.local_port.cmp(&b.local_port))`
(`src/main.rs` line 282).  Rust's `sort_by` is documented to be stable, and
a stable sort is uniquely determined by the key comparison, so it is
embedded as the stable insertion sort. -/
def sortByPort (l : List SocketInfo) : List SocketInfo :=
  List.insertionSort portLe l

/-- The socket sequence produced by the enumeration step of `main`
(`src/main.rs` lines 196-199): IPv4 sockets followed by IPv6 sockets, for
kernel tables that were readable. -/
def enumerated (sys : SystemSnap)
    (v4rows v6rows : List (Except Unit RawSocketInfo)) : List SocketInfo :=
  (okRows v4rows).map (mkSocket sys .IPV4) ++ (okRows v6rows).map (mkSocket sys .IPV6)

/-- `fn main` (`src/main.rs` lines 189-367), up to the record sequence
handed to the presentation code.  The two kernel tables are parameters;
`port` is the `--port` flag.  The result is `Except.error` exactly when
`main` returns `Err` (enumeration failure, or the "Port p is not in use."
failure of the filter branch), and otherwise the ordered record sequence
that gets printed: the matching records for a port filter, the
port-sorted TCP table otherwise. -/
def run_main (sys : SystemSnap) (v4table v6table : KernelTable)
    (port : Option Nat) : Except String (List SocketInfo) :=
  match get_sockets sys .IPV4 v4table with
  | .error e => .error e
  | .ok sockets4 =>
      match get_sockets sys .IPV6 v6table with
      | .error e => .error e
      | .ok sockets6 =>
          let sockets := sockets4 ++ sockets6
          let tcp_sockets := sockets.filter fun s => decide (s.protocol = .TCP)
          match port with
          | some filter_port =>
              let matching := tcp_sockets.filter fun s =>
                decide (s.local_port = filter_port)
              if matching.isEmpty then
                .error ("Port " ++ toString filter_port ++ " is not in use.")
              else
                .ok matching
          | none => .ok (sortByPort tcp_sockets)

/-- The TCP-only restriction `main` applies before any output
(`src/main.rs` lines 202-205), over readable kernel tables. -/
def tcpSockets (sys : SystemSnap)
    (v4rows v6rows : List (Except Unit RawSocketInfo)) : List SocketInfo :=
  (enumerated sys v4rows v6rows).filter fun s => decide (s.protocol = .TCP)

/-! Concrete captured inputs used to witness the theorems below. -/

/-- An empty process-table snapshot. -/
def sysEmpty : SystemSnap := []

/-- A one-process snapshot: pid 42 is a webserver owned by uid 1000. -/
def procWeb : SysProcess :=
  { name := "webserver", uid := some 1000, cmd := ["srv", "-p", "80"]
    exe := some "/bin/srv", cwd := some "/" }

/-- Snapshot containing only pid 42. -/
def sysOne : SystemSnap := [(42, procWeb)]

/-- A raw UDP row on port 53 with no associated process. -/
def udpRow : RawSocketInfo := ⟨.Udp ⟨"0.0.0.0", 53⟩, []⟩

/-- A raw TCP row on port 80 owned by pid 42. -/
def tcpRow80a : RawSocketInfo :=
  ⟨.Tcp ⟨"0.0.0.0", 80, "1.1.1.1", 1111, .Established⟩, [42]⟩

/-- A second raw TCP row on port 80 (distinct remote endpoint), no owner. -/
def tcpRow80b : RawSocketInfo :=
  ⟨.Tcp ⟨"0.0.0.0", 80, "2.2.2.2", 2222, .Established⟩, []⟩

/-- A raw TCP row on port 22 whose socket is shared by pids 10 and 11. -/
def tcpRow22 : RawSocketInfo :=
  ⟨.Tcp ⟨"127.0.0.1", 22, "0.0.0.0", 0, .Listen⟩, [10, 11]⟩

/-- A small account directory. -/
def dirAlice : UsersDir := [(1000, "alice")]

/-- The record built from `tcpRow80a` under `sysOne`. -/
def sock80a : SocketInfo := mkSocket sysOne .IPV4 tcpRow80a

/-- The record built from `tcpRow80b` under `sysOne`. -/
def sock80b : SocketInfo := mkSocket sysOne .IPV4 tcpRow80b

/-- The record built from `tcpRow22` under `sysOne`. -/
def sock22 : SocketInfo := mkSocket sysOne .IPV4 tcpRow22

/-! Helper lemmas. -/

/-- The process list of a built socket record does not depend on the
protocol branch: it is always the in-order resolution of
`associated_pids`. -/
theorem processes_mkSocket (sys : SystemSnap) (addr : AddressFamily)
    (si : RawSocketInfo) :
    (mkSocket sys addr si).processes = si.associated_pids.map (resolvePid sys) := by
  rcases si with ⟨psi, pids⟩
  cases psi <;> rfl

/-- `get_sockets` on a readable table: every well-formed row is converted,
in order. -/
theorem get_sockets_ok (sys : SystemSnap) (addr : AddressFamily)
    (rows : List (Except Unit RawSocketInfo)) :
    get_sockets sys addr (.ok rows) = .ok ((okRows rows).map (mkSocket sys addr)) :=
  rfl

/-- `run_main` without a port filter, on readable tables: the port-sorted
TCP records. -/
theorem run_main_none_eq (sys : SystemSnap)
    (v4rows v6rows : List (Except Unit RawSocketInfo)) :
    run_main sys (.ok v4rows) (.ok v6rows) none
      = .ok (sortByPort (tcpSockets sys v4rows v6rows)) :=
  rfl

/-- `run_main` with a port filter, on readable tables: the matching
records, or the "not in use" error when there are none. -/
theorem run_main_some_eq (sys : SystemSnap)
    (v4rows v6rows : List (Except Unit RawSocketInfo)) (p : Nat) :
    run_main sys (.ok v4rows) (.ok v6rows) (some p)
      = (if ((tcpSockets sys v4rows v6rows).filter fun s =>
              decide (s.local_port = p)).isEmpty then
           .error ("Port " ++ toString p ++ " is not in use.")
         else
           .ok ((tcpSockets sys v4rows v6rows).filter fun s =>
             decide (s.local_port = p))) :=
  rfl

/-- Inserting a record into a list only changes the per-port fibres of the
list at the record's own port, where it lands in front: `orderedInsert`
skips only records with strictly smaller ports. -/
theorem filter_port_orderedInsert (p : Nat) (x : SocketInfo) :
    ∀ l : List SocketInfo,
      (List.orderedInsert portLe x l).filter (fun s => decide (s.local_port = p))
        = if x.local_port = p then
            x :: l.filter (fun s => decide (s.local_port = p))
          else l.filter (fun s => decide (s.local_port = p))
  | [] => by
    simp only [List.orderedInsert_nil, List.filter]
    split <;> simp_all
  | y :: ys => by
    by_cases hxy : portLe x y
    · rw [List.orderedInsert_of_le _ _ hxy]
      by_cases hx : x.local_port = p <;> simp [List.filter, hx]
    · have hlt : y.local_port < x.local_port := by
        have := Nat.lt_of_not_le (fun h => hxy h)
        exact this
      simp only [List.orderedInsert, if_neg hxy]
      by_cases hx : x.local_port = p
      · have hy : ¬ y.local_port = p := by omega
        simp [List.filter, hy, filter_port_orderedInsert p x ys, hx]
      · by_cases hy : y.local_port = p <;>
          simp [List.filter, hy, filter_port_orderedInsert p x ys, hx]

/-- Stability of the port sort, fibre form: for every port value, the
records carrying that port come out of the sort in their original order. -/
theorem filter_port_sortByPort (p : Nat) :
    ∀ l : List SocketInfo,
      (sortByPort l).filter (fun s => decide (s.local_port = p))
        = l.filter (fun s => decide (s.local_port = p))
  | [] => rfl
  | x :: xs => by
    show (List.orderedInsert portLe x (sortByPort xs)).filter _ = _
    rw [filter_port_orderedInsert p x (sortByPort xs), filter_port_sortByPort p xs]
    by_cases hx : x.local_port = p <;> simp [List.filter, hx]

/-- The sort is a permutation of its input. -/
theorem sortByPort_perm (l : List SocketInfo) : (sortByPort l).Perm l :=
  List.perm_insertionSort portLe l

/-- The sort output is sorted by `portLe`. -/
theorem sortByPort_sorted (l : List SocketInfo) :
    List.Sorted portLe (sortByPort l) :=
  List.sorted_insertionSort portLe l

/-! Claim theorems. -/

/-- C1 (counterexample): the claim "the number of records produced for the
presentation layer equals the number of enumerated sockets (TCP and UDP)"
fails: with one enumerated UDP socket on port 53 and no port filter, the
run succeeds with zero output records while the enumeration step returned
one socket — `main` restricts to TCP before producing output. -/
theorem c1_udp_socket_dropped :
    run_main sysEmpty (.ok [.ok udpRow]) (.ok []) none = .ok []
    ∧ (enumerated sysEmpty [.ok udpRow] []).length = 1 :=
  ⟨rfl, rfl⟩

/-- C1 (amended): for every run over readable tables, the number of records
produced for the presentation layer equals the number of enumerated *TCP*
sockets (IPv4 and IPv6); every enumerated TCP socket yields exactly one
output record, even when no owning process was found, while UDP sockets
are removed by the TCP-only restriction. -/
theorem c1_record_count_eq_tcp_count (sys : SystemSnap)
    (v4rows v6rows : List (Except Unit RawSocketInfo)) (out : List SocketInfo)
    (h : run_main sys (.ok v4rows) (.ok v6rows) none = .ok out) :
    out.length = (tcpSockets sys v4rows v6rows).length := by
  rw [run_main_none_eq] at h
  cases h
  exact (sortByPort_perm _).length_eq

/-- C1 witness: a run over one TCP socket (pid 42), one ownerless TCP
socket and one UDP socket produces exactly two records. -/
theorem c1_record_count_eq_tcp_count_witness :
    run_main sysOne (.ok [.ok tcpRow80a, .ok udpRow]) (.ok [.ok tcpRow80b]) none
        = .ok (sortByPort (tcpSockets sysOne [.ok tcpRow80a, .ok udpRow] [.ok tcpRow80b]))
    ∧ (sortByPort (tcpSockets sysOne [.ok tcpRow80a, .ok udpRow] [.ok tcpRow80b])).length
        = (tcpSockets sysOne [.ok tcpRow80a, .ok udpRow] [.ok tcpRow80b]).length
    ∧ (tcpSockets sysOne [.ok tcpRow80a, .ok udpRow] [.ok tcpRow80b]).length = 2 :=
  ⟨rfl, c1_record_count_eq_tcp_count sysOne _ _ _ rfl, by decide⟩

/-- C2 (counterexample): the claim that a zero-match port filter is "not an
error / not a process failure" fails: filtering an empty socket set for
port 9999 makes `main` return `Err("Port 9999 is not in use.")`, a process
failure (non-zero exit). -/
theorem c2_filter_miss_returns_err :
    run_main sysEmpty (.ok []) (.ok []) (some 9999)
      = .error "Port 9999 is not in use." :=
  rfl

/-- C2 (amended): when a specific port filter is supplied and zero TCP
sockets have that local port, `main` reports a distinguishable "not in
use" outcome — the dedicated error `Port p is not in use.` returned from
`main` (hence a process failure), distinct from any successful listing,
empty or not. -/
theorem c2_filter_miss_distinguishable (sys : SystemSnap)
    (v4rows v6rows : List (Except Unit RawSocketInfo)) (p : Nat)
    (h : ∀ s ∈ tcpSockets sys v4rows v6rows, s.local_port ≠ p) :
    run_main sys (.ok v4rows) (.ok v6rows) (some p)
        = .error ("Port " ++ toString p ++ " is not in use.")
    ∧ ∀ l, run_main sys (.ok v4rows) (.ok v6rows) (some p) ≠ .ok l := by
  have hnil : ((tcpSockets sys v4rows v6rows).filter fun s =>
      decide (s.local_port = p)) = [] := by
    rw [List.filter_eq_nil_iff]
    intro a ha
    simpa using h a ha
  have hrun : run_main sys (.ok v4rows) (.ok v6rows) (some p)
      = .error ("Port " ++ toString p ++ " is not in use.") := by
    rw [run_main_some_eq, hnil]
    rfl
  exact ⟨hrun, fun l hl => by rw [hrun] at hl; exact Except.noConfusion hl⟩

/-- C2 witness: with one TCP socket on port 80, filtering for port 9999
yields the "not in use" error. -/
theorem c2_filter_miss_distinguishable_witness :
    (∀ s ∈ tcpSockets sysOne [.ok tcpRow80a] [], s.local_port ≠ 9999)
    ∧ run_main sysOne (.ok [.ok tcpRow80a]) (.ok []) (some 9999)
        = .error ("Port " ++ toString 9999 ++ " is not in use.") :=
  ⟨by decide, (c2_filter_miss_distinguishable sysOne [.ok tcpRow80a] [] 9999 (by decide)).1⟩

/-- C10: `format_command_line` is not total: joining `["ééé"]` (six UTF-8
bytes) and truncating to `max_length = 4` slices the joined string at byte
index 1, which falls inside the first two-byte character, so the Rust
original panics (`none` here).  The empty-command sentinel and ASCII
truncation behave as claimed. -/
theorem c10_format_command_line_panics :
    format_command_line [String.data "ééé"] 4 = none
    ∧ format_command_line [] 4 = some (String.data "unknown")
    ∧ format_command_line [String.data "aaaaaa"] 4 = some (String.data "a...") :=
  ⟨by decide, by decide, by decide⟩

/-- C3: the records produced when filtering by a port `p` are exactly the
subset of the full (unfiltered) listing whose `local_port` equals `p`; in
particular every full-listing record with that port — including several
records sharing the port across protocol/family pairs — appears in the
filtered output. -/
theorem c3_filtered_eq_subset_of_full (sys : SystemSnap)
    (v4rows v6rows : List (Except Unit RawSocketInfo)) (p : Nat)
    (out full : List SocketInfo)
    (hf : run_main sys (.ok v4rows) (.ok v6rows) (some p) = .ok out)
    (hu : run_main sys (.ok v4rows) (.ok v6rows) none = .ok full) :
    out = full.filter (fun s => decide (s.local_port = p))
    ∧ ∀ s ∈ full, s.local_port = p → s ∈ out := by
  rw [run_main_some_eq] at hf
  rw [run_main_none_eq] at hu
  cases hu
  by_cases he : ((tcpSockets sys v4rows v6rows).filter fun s =>
      decide (s.local_port = p)).isEmpty
  · rw [if_pos he] at hf
    exact Except.noConfusion hf
  · rw [if_neg he] at hf
    cases hf
    refine ⟨(filter_port_sortByPort p _).symm, fun s hs hsp => ?_⟩
    rw [← filter_port_sortByPort p]
    exact List.mem_filter.mpr ⟨hs, by simp [hsp]⟩

/-- C3 witness: two TCP records share port 80 (distinct remote endpoints);
filtering for 80 returns both of them, and they are exactly the port-80
subset of the full listing. -/
theorem c3_filtered_eq_subset_of_full_witness :
    run_main sysOne (.ok [.ok tcpRow80a, .ok tcpRow22, .ok tcpRow80b]) (.ok [])
        (some 80) = .ok [sock80a, sock80b]
    ∧ ([sock80a, sock80b]
        = (sortByPort (tcpSockets sysOne [.ok tcpRow80a, .ok tcpRow22, .ok tcpRow80b] [])).filter
            (fun s => decide (s.local_port = 80))
       ∧ ∀ s ∈ sortByPort (tcpSockets sysOne [.ok tcpRow80a, .ok tcpRow22, .ok tcpRow80b] []),
          s.local_port = 80 → s ∈ [sock80a, sock80b]) :=
  ⟨rfl,
   c3_filtered_eq_subset_of_full sysOne [.ok tcpRow80a, .ok tcpRow22, .ok tcpRow80b] [] 80
     [sock80a, sock80b] _ rfl rfl⟩

/-- C4: the unfiltered listing is sorted ascending by `local_port`, is a
permutation of the enumerated TCP records, and the sort is stable: for
every port value, the records carrying that port appear in their original
enumeration order. -/
theorem c4_table_sorted_and_stable (sys : SystemSnap)
    (v4rows v6rows : List (Except Unit RawSocketInfo)) (out : List SocketInfo)
    (h : run_main sys (.ok v4rows) (.ok v6rows) none = .ok out) :
    List.Sorted portLe out
    ∧ out.Perm (tcpSockets sys v4rows v6rows)
    ∧ ∀ p, out.filter (fun s => decide (s.local_port = p))
        = (tcpSockets sys v4rows v6rows).filter (fun s => decide (s.local_port = p)) := by
  rw [run_main_none_eq] at h
  cases h
  exact ⟨sortByPort_sorted _, sortByPort_perm _, fun p => filter_port_sortByPort p _⟩

/-- C4 witness: the enumeration order 80a, 22, 80b comes out as 22, 80a,
80b — ascending ports, with the two port-80 records kept in their original
relative order. -/
theorem c4_table_sorted_and_stable_witness :
    run_main sysOne (.ok [.ok tcpRow80a, .ok tcpRow22, .ok tcpRow80b]) (.ok []) none
        = .ok [sock22, sock80a, sock80b]
    ∧ (List.Sorted portLe [sock22, sock80a, sock80b]
       ∧ ([sock22, sock80a, sock80b] : List SocketInfo).Perm
           (tcpSockets sysOne [.ok tcpRow80a, .ok tcpRow22, .ok tcpRow80b] [])
       ∧ ∀ p, ([sock22, sock80a, sock80b] : List SocketInfo).filter
              (fun s => decide (s.local_port = p))
            = (tcpSockets sysOne [.ok tcpRow80a, .ok tcpRow22, .ok tcpRow80b] []).filter
              (fun s => decide (s.local_port = p))) :=
  ⟨rfl,
   c4_table_sorted_and_stable sysOne [.ok tcpRow80a, .ok tcpRow22, .ok tcpRow80b] []
     [sock22, sock80a, sock80b] rfl⟩

/-- C5: every record produced by the enumerator has `remote_addr` and
`remote_port` both present or both absent; TCP records carry both plus a
state, UDP records carry neither and no state. -/
theorem c5_remote_fields_invariant (sys : SystemSnap) (addr : AddressFamily)
    (table : KernelTable) (out : List SocketInfo)
    (h : get_sockets sys addr table = .ok out)
    (s : SocketInfo) (hs : s ∈ out) :
    (s.remote_addr.isSome ↔ s.remote_port.isSome)
    ∧ (s.protocol = .TCP → s.remote_addr.isSome ∧ s.remote_port.isSome ∧ s.state.isSome)
    ∧ (s.protocol = .UDP → s.remote_addr = none ∧ s.remote_port = none ∧ s.state = none) := by
  cases table with
  | error e => exact Except.noConfusion h
  | ok rows =>
    rw [get_sockets_ok] at h
    cases h
    obtain ⟨si, _, rfl⟩ := List.mem_map.mp hs
    rcases si with ⟨psi, pids⟩
    cases psi <;> simp [mkSocket]

/-- C5 witness: a table holding one TCP and one UDP row enumerates to
records satisfying the invariant. -/
theorem c5_remote_fields_invariant_witness :
    get_sockets sysOne .IPV4 (.ok [.ok tcpRow80a, .ok udpRow])
        = .ok [sock80a, mkSocket sysOne .IPV4 udpRow]
    ∧ sock80a ∈ [sock80a, mkSocket sysOne .IPV4 udpRow]
    ∧ ((sock80a.remote_addr.isSome ↔ sock80a.remote_port.isSome)
       ∧ (sock80a.protocol = .TCP →
            sock80a.remote_addr.isSome ∧ sock80a.remote_port.isSome ∧ sock80a.state.isSome)
       ∧ (sock80a.protocol = .UDP →
            sock80a.remote_addr = none ∧ sock80a.remote_port = none ∧ sock80a.state = none)) :=
  ⟨rfl, by decide,
   c5_remote_fields_invariant sysOne .IPV4 (.ok [.ok tcpRow80a, .ok udpRow])
     [sock80a, mkSocket sysOne .IPV4 udpRow] rfl sock80a (by decide)⟩

/-- C6: enumeration fails, with the "Failed to get socket information"
error, exactly when the whole kernel table is unreadable: a readable table
always enumerates successfully, and a malformed row anywhere in a readable
table is skipped silently — removing it does not change the result, so the
remaining well-formed rows are still returned. -/
theorem c6_enumeration_failure_semantics (sys : SystemSnap) (addr : AddressFamily) :
    (∀ e, get_sockets sys addr (.error e)
        = .error ("Failed to get socket information: " ++ e))
    ∧ (∀ rows, ∃ out, get_sockets sys addr (.ok rows) = .ok out)
    ∧ (∀ pre post, get_sockets sys addr (.ok (pre ++ .error () :: post))
        = get_sockets sys addr (.ok (pre ++ post))) := by
  refine ⟨fun e => rfl, fun rows => ⟨_, rfl⟩, fun pre post => ?_⟩
  rw [get_sockets_ok, get_sockets_ok]
  simp [okRows, List.filterMap_append, List.filterMap_cons]

/-- C7: a pid whose process is absent from the snapshot still yields a
process record with only the pid populated (uid `none`, the "unknown" name
sentinel, empty command and paths) — never an error, and the socket's
process list never drops an entry: its length always equals the number of
associated pids. -/
theorem c7_vanished_process_sentinel (sys : SystemSnap) (addr : AddressFamily)
    (si : RawSocketInfo) (pid : Nat)
    (hmem : pid ∈ si.associated_pids) (hgone : List.lookup pid sys = none) :
    (⟨pid, none, "unknown", [], "", ""⟩ : ProcessInfo) ∈ (mkSocket sys addr si).processes
    ∧ (mkSocket sys addr si).processes.length = si.associated_pids.length := by
  rw [processes_mkSocket]
  constructor
  · have hres : resolvePid sys pid = ⟨pid, none, "unknown", [], "", ""⟩ := by
      simp [resolvePid, hgone]
    exact hres ▸ List.mem_map_of_mem (resolvePid sys) hmem
  · exact List.length_map _ _

/-- C7 witness: pids 10 and 11 are absent from the one-process snapshot;
the socket built from `tcpRow22` still records both, pid 10 as the
pid-only sentinel. -/
theorem c7_vanished_process_sentinel_witness :
    10 ∈ tcpRow22.associated_pids
    ∧ List.lookup 10 sysOne = none
    ∧ (⟨10, none, "unknown", [], "", ""⟩ : ProcessInfo) ∈ sock22.processes
    ∧ sock22.processes.length = tcpRow22.associated_pids.length :=
  ⟨by decide, by decide,
   (c7_vanished_process_sentinel sysOne .IPV4 tcpRow22 10 (by decide) (by decide)).1,
   (c7_vanished_process_sentinel sysOne .IPV4 tcpRow22 10 (by decide) (by decide)).2⟩

/-- C8: the displayed user name is resolved from the first associated
process's uid; a socket with no process, a first process without uid, or a
uid absent from the account directory all resolve to the "unknown"
sentinel, and a mapped uid resolves to the mapped name. -/
theorem c8_user_name_resolution (dir : UsersDir) (s : SocketInfo) :
    (s.processes = [] → displayed_user dir s = "unknown")
    ∧ (∀ p ps, s.processes = p :: ps → p.uid = none →
        displayed_user dir s = "unknown")
    ∧ (∀ p ps u, s.processes = p :: ps → p.uid = some u →
        List.lookup u dir = none → displayed_user dir s = "unknown")
    ∧ (∀ p ps u name, s.processes = p :: ps → p.uid = some u →
        List.lookup u dir = some name → displayed_user dir s = name) := by
  refine ⟨fun hnil => ?_, fun p ps hcons huid => ?_,
    fun p ps u hcons huid hdir => ?_, fun p ps u name hcons huid hdir => ?_⟩ <;>
    simp [displayed_user, first_uid, get_user_info, get_user_by_uid, *]

/-- C8 witness: pid 42's uid 1000 maps to "alice" in the directory, so the
port-80 record displays "alice"; the ownerless record displays the
"unknown" sentinel. -/
theorem c8_user_name_resolution_witness :
    sock80a.processes = resolvePid sysOne 42 :: []
    ∧ (resolvePid sysOne 42).uid = some 1000
    ∧ List.lookup 1000 dirAlice = some "alice"
    ∧ displayed_user dirAlice sock80a = "alice"
    ∧ sock80b.processes = []
    ∧ displayed_user dirAlice sock80b = "unknown" :=
  ⟨by decide, by decide, by decide,
   (c8_user_name_resolution dirAlice sock80a).2.2.2 (resolvePid sysOne 42) [] 1000 "alice"
     (by decide) (by decide) (by decide),
   by decide,
   (c8_user_name_resolution dirAlice sock80b).1 (by decide)⟩

/-- C9: every associated pid is recorded in the socket's process list, in
the order the scan encountered it — the i-th enumerated record's process
list is the in-order resolution of the i-th well-formed row's pid list,
with no record dropped — and resolution over the same captured input is
deterministic: any two successful runs return the identical ordered
output. -/
theorem c9_all_owners_in_scan_order (sys : SystemSnap) (addr : AddressFamily)
    (rows : List (Except Unit RawSocketInfo)) (out : List SocketInfo)
    (h : get_sockets sys addr (.ok rows) = .ok out) :
    (∀ i (hi : i < out.length) (hi' : i < (okRows rows).length),
        (out.get ⟨i, hi⟩).processes
          = ((okRows rows).get ⟨i, hi'⟩).associated_pids.map (resolvePid sys))
    ∧ out.length = (okRows rows).length
    ∧ ∀ out', get_sockets sys addr (.ok rows) = .ok out' → out' = out := by
  rw [get_sockets_ok] at h
  cases h
  refine ⟨fun i hi hi' => ?_, List.length_map _ _, fun out' h' => ?_⟩
  · simp [List.get_eq_getElem, List.getElem_map, processes_mkSocket]
  · rw [get_sockets_ok] at h'
    exact (Except.ok.inj h').symm

/-- C9 witness: the socket shared by pids 10 and 11 records both owners in
scan order. -/
theorem c9_all_owners_in_scan_order_witness :
    get_sockets sysOne .IPV4 (.ok [.ok tcpRow22]) = .ok [sock22]
    ∧ sock22.processes.map (fun p => p.pid) = [10, 11]
    ∧ ∀ out', get_sockets sysOne .IPV4 (.ok [.ok tcpRow22]) = .ok out' → out' = [sock22] :=
  ⟨rfl, by decide,
   (c9_all_owners_in_scan_order sysOne .IPV4 [.ok tcpRow22] [sock22] rfl).2.2⟩

end Wiump
